import Mathlib

/-!
Shallow embedding of `crates/storybook2/src/collab_panel.rs`.

The component builds a retained-mode UI tree from a theme and hard-coded
sample data.  Elements (`div`, `img`, `svg`, text) carry a `Style` record
that the Tailwind-style builder methods update; children are appended in
call order, exactly as in the source.  Lengths are tracked in half
Tailwind units (`units2 n` is n/2 Tailwind spacing units), so `h_7` is
`units2 14` and the `3p5` sizes are `units2 7`.
-/

/-- Colors are opaque to this component: it only copies them from theme
slots into style fields, so a numeric token suffices. -/
abbrev Color : Type := Nat

/-- Modelled from the spec: the theme crate is not part of this slice.
A theme slot holds foreground, background and border colors. -/
structure ThemeStyle where
  foreground : Color
  background : Color
  border : Color
deriving Repr, DecidableEq

/-- Modelled from the spec: interaction states of one theme role. -/
structure ThemeSet where
  default : ThemeStyle
  hovered : ThemeStyle
  pressed : ThemeStyle
deriving Repr, DecidableEq

/-- Modelled from the spec: the roles of one elevation layer that this
component reads (base, variant, positive). -/
structure ThemeLayer where
  base : ThemeSet
  variant : ThemeSet
  positive : ThemeSet
deriving Repr, DecidableEq

/-- Modelled from the spec: a nested read-only color lookup keyed by
elevation, role and interaction state. -/
structure Theme where
  lowest : ThemeLayer
  middle : ThemeLayer
  highest : ThemeLayer
deriving Repr, DecidableEq

/-- Modelled from the spec: the scroll-position token is opaque, owned by
the host framework; only its identity matters here. -/
structure ScrollState where
  token : Nat := 0
deriving Repr, DecidableEq

/-- A length, in half Tailwind spacing units, or the parent-relative
`full` size. -/
inductive Length where
  | units2 (n : Nat)
  | full
deriving Repr, DecidableEq

/-- Corner rounding; only the fully-rounded variant is used. -/
inductive Rounding where
  | full
deriving Repr, DecidableEq

/-- The style record a builder chain accumulates.  Each field corresponds
to one of the styling methods used in the source file. -/
structure Style where
  width : Option Length := none
  height : Option Length := none
  displayFlex : Bool := false
  flexColumn : Bool := false
  fontFamily : Option String := none
  textColor : Option Color := none
  borderColor : Option Color := none
  borderAll : Bool := false
  borderBottom : Bool := false
  borderTop : Bool := false
  fillColor : Option Color := none
  padBottom : Option Length := none
  padTop : Option Length := none
  padLeft : Option Length := none
  padRight : Option Length := none
  scrollY : Option ScrollState := none
  justifyBetween : Bool := false
  itemsCenter : Bool := false
  gap : Option Length := none
  textSm : Bool := false
  rounded : Option Rounding := none
deriving Repr, DecidableEq

/-- A retained-mode UI element: a styled container with ordered children,
a styled image with a URI, a styled vector icon with an asset path, or a
text leaf. -/
inductive Element where
  | text (s : String)
  | div (style : Style) (children : List Element)
  | img (style : Style) (uri : String)
  | svg (style : Style) (path : String)

/-- The empty container the gpui `div()` constructor produces. -/
def div : Element := .div {} []

/-- The empty image the gpui `img()` constructor produces. -/
def img : Element := .img {} ""

/-- The empty icon the gpui `svg()` constructor produces. -/
def svg : Element := .svg {} ""

namespace Element

/-- Apply a style update to an element (text leaves carry no style). -/
def mapStyle (f : Style → Style) : Element → Element
  | .div s cs => .div (f s) cs
  | .img s u => .img (f s) u
  | .svg s p => .svg (f s) p
  | .text t => .text t

def w_64 (e : Element) : Element := e.mapStyle fun s => { s with width := some (.units2 128) }

def w_full (e : Element) : Element := e.mapStyle fun s => { s with width := some .full }

def w_3p5 (e : Element) : Element := e.mapStyle fun s => { s with width := some (.units2 7) }

def h_full (e : Element) : Element := e.mapStyle fun s => { s with height := some .full }

def h_7 (e : Element) : Element := e.mapStyle fun s => { s with height := some (.units2 14) }

def h_3p5 (e : Element) : Element := e.mapStyle fun s => { s with height := some (.units2 7) }

def size_3p5 (e : Element) : Element :=
  e.mapStyle fun s => { s with width := some (.units2 7), height := some (.units2 7) }

def flex (e : Element) : Element := e.mapStyle fun s => { s with displayFlex := true }

def flex_col (e : Element) : Element := e.mapStyle fun s => { s with flexColumn := true }

def font (e : Element) (name : String) : Element :=
  e.mapStyle fun s => { s with fontFamily := some name }

def text_color (e : Element) (c : Color) : Element :=
  e.mapStyle fun s => { s with textColor := some c }

def border_color (e : Element) (c : Color) : Element :=
  e.mapStyle fun s => { s with borderColor := some c }

def border (e : Element) : Element := e.mapStyle fun s => { s with borderAll := true }

def border_b (e : Element) : Element := e.mapStyle fun s => { s with borderBottom := true }

def border_t (e : Element) : Element := e.mapStyle fun s => { s with borderTop := true }

def fill (e : Element) (c : Color) : Element :=
  e.mapStyle fun s => { s with fillColor := some c }

def pb_1 (e : Element) : Element := e.mapStyle fun s => { s with padBottom := some (.units2 2) }

def py_2 (e : Element) : Element :=
  e.mapStyle fun s => { s with padTop := some (.units2 4), padBottom := some (.units2 4) }

def px_2 (e : Element) : Element :=
  e.mapStyle fun s => { s with padLeft := some (.units2 4), padRight := some (.units2 4) }

def overflow_y_scroll (e : Element) (st : ScrollState) : Element :=
  e.mapStyle fun s => { s with scrollY := some st }

def justify_between (e : Element) : Element :=
  e.mapStyle fun s => { s with justifyBetween := true }

def items_center (e : Element) : Element := e.mapStyle fun s => { s with itemsCenter := true }

def gap_1 (e : Element) : Element := e.mapStyle fun s => { s with gap := some (.units2 2) }

def text_sm (e : Element) : Element := e.mapStyle fun s => { s with textSm := true }

def rounded_full (e : Element) : Element := e.mapStyle fun s => { s with rounded := some .full }

/-- Set the asset path of a vector icon. -/
def path : Element → String → Element
  | .svg s _, p => .svg s p
  | other, _ => other

/-- Set the image address of an image element. -/
def uri : Element → String → Element
  | .img s _, u => .img s u
  | other, _ => other

/-- Append one child to a container, after the existing children. -/
def child (e c : Element) : Element :=
  match e with
  | .div s cs => .div s (cs ++ [c])
  | other => other

/-- Append a whole list of children to a container, in order. -/
def children (e : Element) (more : List Element) : Element :=
  match e with
  | .div s cs => .div s (cs ++ more)
  | other => other

/-- The ordered children of a container (leaves have none). -/
def childNodes : Element → List Element
  | .div _ cs => cs
  | _ => []

/-- The accumulated style of an element (text leaves have the default). -/
def styleOf : Element → Style
  | .div s _ => s
  | .img s _ => s
  | .svg s _ => s
  | .text _ => {}

/-- The asset path of a vector icon, if the element is one. -/
def svgPath : Element → Option String
  | .svg _ p => some p
  | _ => none

/-- Whether the element is an image. -/
def isImg : Element → Bool
  | .img _ _ => true
  | _ => false

end Element

/-- The panel state: it owns exactly the scroll-position token. -/
structure CollabPanel where
  scroll_state : ScrollState

/-- The constructor used by the view factory: a default scroll token. -/
def CollabPanel.new : CollabPanel := { scroll_state := {} }

/-- The section-header fragment: a fixed-height row with the label on the
left and a caret icon on the right, the icon asset chosen by the
expanded flag. -/
def CollabPanel.list_section_header (_self : CollabPanel) (label : Element)
    (expanded : Bool) (theme : Theme) : Element :=
  div
    |>.h_7
    |>.px_2
    |>.flex
    |>.justify_between
    |>.items_center
    |>.child (div |>.flex |>.gap_1 |>.text_sm |>.child label)
    |>.child
      (div |>.flex |>.h_full |>.gap_1 |>.items_center
        |>.child
          (svg
            |>.path (if expanded then "icons/radix/caret-down.svg" else "icons/radix/caret-up.svg")
            |>.w_3p5
            |>.h_3p5
            |>.fill theme.middle.variant.default.foreground))

/-- The list-item fragment: a fixed-height row holding a small rounded
square avatar image followed by the label. -/
def CollabPanel.list_item (_self : CollabPanel) (avatar_uri : String)
    (label : Element) (theme : Theme) : Element :=
  div
    |>.h_7
    |>.px_2
    |>.flex
    |>.items_center
    |>.child
      (div
        |>.flex
        |>.items_center
        |>.gap_1
        |>.text_sm
        |>.child
          (img
            |>.uri avatar_uri
            |>.size_3p5
            |>.rounded_full
            |>.fill theme.middle.positive.default.foreground)
        |>.child label)

/-- The full panel tree.  The receiver is threaded through explicitly,
mirroring the mutable-reference signature of the source; the body only
reads the scroll token, so the state comes back unchanged. -/
def CollabPanel.render (self : CollabPanel) (theme : Theme) : Element × CollabPanel :=
  ( div
      |>.w_64
      |>.h_full
      |>.flex
      |>.flex_col
      |>.font "Courier"
      |>.text_color theme.middle.base.default.foreground
      |>.border_color theme.middle.base.default.border
      |>.border
      |>.fill theme.middle.base.default.background
      |>.child
        (div
          |>.w_full
          |>.flex
          |>.flex_col
          |>.overflow_y_scroll self.scroll_state
          |>.child
            (div
              |>.fill theme.lowest.base.default.background
              |>.pb_1
              |>.border_color theme.lowest.base.default.border
              |>.border_b
              |>.child (self.list_section_header (.text "#CRDB 🗃️") true theme)
              |>.child
                (self.list_item "http://github.com/maxbrunsfeld.png?s=50"
                  (.text "maxbrunsfeld") theme))
          |>.child
            (div
              |>.py_2
              |>.flex
              |>.flex_col
              |>.child (self.list_section_header (.text "CHANNELS") true theme))
          |>.child
            (div
              |>.py_2
              |>.flex
              |>.flex_col
              |>.child (self.list_section_header (.text "CONTACTS") true theme)
              |>.children
                ((List.replicate 10
                  [ self.list_item "http://github.com/as-cii.png?s=50" (.text "as-cii") theme,
                    self.list_item "http://github.com/nathansobo.png?s=50"
                      (.text "nathansobo") theme,
                    self.list_item "http://github.com/maxbrunsfeld.png?s=50"
                      (.text "maxbrunsfeld") theme ]).flatten)))
      |>.child
        (div
          |>.h_7
          |>.px_2
          |>.border_t
          |>.border_color theme.middle.variant.default.border
          |>.flex
          |>.items_center
          |>.child
            (div
              |>.text_sm
              |>.text_color theme.middle.variant.default.foreground
              |>.child (.text "Find..."))),
    self )

/-- Iterate the render call, threading the returned state each time. -/
def renderTimes : Nat → CollabPanel → Theme → CollabPanel
  | 0, p, _ => p
  | n + 1, p, theme => renderTimes n (p.render theme).2 theme

/-- The scrollable body: the first child of the rendered tree. -/
def scrollBody (tree : Element) : Element := tree.childNodes.getD 0 div

/-- The footer bar: the second child of the rendered tree. -/
def footerBar (tree : Element) : Element := tree.childNodes.getD 1 div

/-- The i-th section block inside the scrollable body. -/
def sectionBlock (tree : Element) (i : Nat) : Element :=
  (scrollBody tree).childNodes.getD i div

/-- The label element of the header row of a section block. -/
def sectionHeaderText (block : Element) : Option Element :=
  ((block.childNodes.getD 0 div).childNodes.getD 0 div).childNodes.get? 0

/-- The item rows of the CONTACTS section: everything after its header. -/
def contactsRows (p : CollabPanel) (theme : Theme) : List Element :=
  (sectionBlock (p.render theme).1 2).childNodes.drop 1

/-- The asset path of the caret icon of a section-header row. -/
def headerIconPath (e : Element) : Option String :=
  ((e.childNodes.getD 1 div).childNodes.getD 0 div).svgPath

/-- The avatar element of a list-item row. -/
def itemAvatar (row : Element) : Element :=
  (row.childNodes.getD 0 div).childNodes.getD 0 div

/-- The label element of a list-item row. -/
def itemLabel (row : Element) : Element :=
  (row.childNodes.getD 0 div).childNodes.getD 1 div

theorem renderTimes_eq (n : Nat) (p : CollabPanel) (theme : Theme) :
    renderTimes n p theme = p := by
  induction n with
  | zero => rfl
  | succ n ih => exact ih

/-- Claim C1: for every invocation count and theme, the CONTACTS section
contains exactly 30 item rows, the cycle of the three literal sample
contacts repeated exactly 10 times. -/
theorem contacts_section_thirty_rows (n : Nat) (p : CollabPanel) (theme : Theme) :
    contactsRows (renderTimes n p theme) theme =
      (List.replicate 10
        [ p.list_item "http://github.com/as-cii.png?s=50" (.text "as-cii") theme,
          p.list_item "http://github.com/nathansobo.png?s=50" (.text "nathansobo") theme,
          p.list_item "http://github.com/maxbrunsfeld.png?s=50" (.text "maxbrunsfeld") theme ]).flatten
    ∧ (contactsRows (renderTimes n p theme) theme).length = 30 := by
  rw [renderTimes_eq]
  exact ⟨rfl, rfl⟩

/-- Claim C2: for every label and theme, the expanded header selects the
caret-down asset path and the collapsed header selects caret-up. -/
theorem list_section_header_caret (p : CollabPanel) (label : Element) (theme : Theme) :
    headerIconPath (p.list_section_header label true theme) =
      some "icons/radix/caret-down.svg"
    ∧ headerIconPath (p.list_section_header label false theme) =
      some "icons/radix/caret-up.svg" :=
  ⟨rfl, rfl⟩

/-- Claim C3: rendering twice on the same instance with an unchanged theme
yields the identical tree and state: no hidden self-mutation is
observable in the output. -/
theorem render_deterministic (p : CollabPanel) (theme : Theme) :
    (p.render theme).2.render theme = p.render theme := rfl

/-- Claim C4: render never changes the scroll-position token: the state
coming out of a render call carries the same scroll_state as the state
going in. -/
theorem render_preserves_scroll_state (p : CollabPanel) (theme : Theme) :
    ((p.render theme).2).scroll_state = p.scroll_state := rfl

/-- Claim C5: for every URI, label and theme, the list-item row places the
avatar image before the label, and the avatar has equal width and
height with full corner rounding. -/
theorem list_item_avatar_layout (p : CollabPanel) (u : String) (label : Element)
    (theme : Theme) :
    (itemAvatar (p.list_item u label theme)).isImg = true
    ∧ itemLabel (p.list_item u label theme) = label
    ∧ (itemAvatar (p.list_item u label theme)).styleOf.width = some (.units2 7)
    ∧ (itemAvatar (p.list_item u label theme)).styleOf.height = some (.units2 7)
    ∧ (itemAvatar (p.list_item u label theme)).styleOf.rounded = some Rounding.full :=
  ⟨rfl, rfl, rfl, rfl, rfl⟩

/-- Claim C6: for every theme, the rendered tree has exactly one scroll
container and one footer under the root, and the scroll container holds
exactly the three section blocks pinned, CHANNELS and CONTACTS. -/
theorem render_tree_shape (p : CollabPanel) (theme : Theme) :
    ((p.render theme).1).childNodes.length = 2
    ∧ (scrollBody (p.render theme).1).styleOf.scrollY = some p.scroll_state
    ∧ (scrollBody (p.render theme).1).childNodes.length = 3
    ∧ sectionHeaderText (sectionBlock (p.render theme).1 0) = some (.text "#CRDB 🗃️")
    ∧ sectionHeaderText (sectionBlock (p.render theme).1 1) = some (.text "CHANNELS")
    ∧ sectionHeaderText (sectionBlock (p.render theme).1 2) = some (.text "CONTACTS")
    ∧ ((footerBar (p.render theme).1).childNodes.getD 0 div).childNodes.get? 0 =
        some (.text "Find...") :=
  ⟨rfl, rfl, rfl, rfl, rfl, rfl, rfl⟩

/-- Claim C7: the pinned block takes background and border from the
lowest-elevation base default slot and contains exactly the expanded
header with the sample channel name followed by one sample contact
row. -/
theorem pinned_block_shape (p : CollabPanel) (theme : Theme) :
    (sectionBlock (p.render theme).1 0).styleOf.fillColor =
      some theme.lowest.base.default.background
    ∧ (sectionBlock (p.render theme).1 0).styleOf.borderColor =
      some theme.lowest.base.default.border
    ∧ (sectionBlock (p.render theme).1 0).childNodes =
      [ p.list_section_header (.text "#CRDB 🗃️") true theme,
        p.list_item "http://github.com/maxbrunsfeld.png?s=50" (.text "maxbrunsfeld") theme ] :=
  ⟨rfl, rfl, rfl⟩

/-- Claim C8: the footer bar has the fixed row height, a top border
colored from the theme, and exactly one child holding exactly the
Find placeholder label. -/
theorem footer_shape (p : CollabPanel) (theme : Theme) :
    (footerBar (p.render theme).1).styleOf.height = some (.units2 14)
    ∧ (footerBar (p.render theme).1).styleOf.borderTop = true
    ∧ (footerBar (p.render theme).1).styleOf.borderColor =
      some theme.middle.variant.default.border
    ∧ (footerBar (p.render theme).1).childNodes.length = 1
    ∧ ((footerBar (p.render theme).1).childNodes.getD 0 div).childNodes =
      [.text "Find..."] :=
  ⟨rfl, rfl, rfl, rfl, rfl⟩

/-- Claim C9: the caret icon asset path depends only on the expanded flag:
two header calls with the same flag but different receivers, labels and
themes select the identical icon path. -/
theorem caret_depends_only_on_expanded (p q : CollabPanel) (l1 l2 : Element)
    (t1 t2 : Theme) (expanded : Bool) :
    headerIconPath (p.list_section_header l1 expanded t1) =
      headerIconPath (q.list_section_header l2 expanded t2) := by
  cases expanded <;> rfl

/-- Claim C10: section-header rows, list-item rows and the footer bar all
share the one fixed row height, for every label, flag, URI and theme. -/
theorem row_heights_uniform (p : CollabPanel) (l : Element) (e : Bool) (u : String)
    (theme : Theme) :
    (p.list_section_header l e theme).styleOf.height = some (.units2 14)
    ∧ (p.list_item u l theme).styleOf.height = some (.units2 14)
    ∧ (footerBar (p.render theme).1).styleOf.height = some (.units2 14) :=
  ⟨rfl, rfl, rfl⟩
